import Mathlib

/-!
Shallow embedding of the escrow / vacancy-fulfillment protocol of the
fill_11 Django backend (src/apps/matches/views.py, models.py, admin.py).

The database is modelled as an explicit state (`DB`) holding the single
match a view operates on (Django's `self.get_object()`) together with the
rows of the related tables.  Django ORM calls are translated as follows:
`objects.get(...)`/`find` become `List.find?`, `objects.create` appends a
row, `queryset.update(...)` maps an update function over the rows matching
the filter, and `get_or_create` branches on `List.any`.  Decimal amounts
and GPS coordinates are modelled as rationals; the float haversine
computation `_haversine_distance_m` (a total pure function with no
validation in the source) is abstracted as an explicit function parameter
`distF` so that the control flow of `gps_checkin` around it is exact.
-/

/-- Match.STATUS_CHOICES in src/apps/matches/models.py. -/
inductive MatchStatus
  | PENDING | CONFIRMED | ONGOING | COMPLETED | CANCELLED
deriving DecidableEq, Repr

/-- Match.GROUND_STATUS_CHOICES in src/apps/matches/models.py. -/
inductive GroundStatus
  | PENDING | SECURED | BOOKED
deriving DecidableEq, Repr

/-- Vacancy.STATUS_CHOICES in src/apps/matches/models.py (only OPEN and FILLED). -/
inductive VacancyStatus
  | OPEN | FILLED
deriving DecidableEq, Repr

/-- EscrowTransaction.STATUS_CHOICES in src/apps/matches/models.py. -/
inductive EscrowStatus
  | HELD | RELEASED | REFUNDED
deriving DecidableEq, Repr

/-- MatchJoinRequest.STATUS_CHOICES in src/apps/matches/models.py. -/
inductive JoinRequestStatus
  | PENDING | APPROVED | REJECTED
deriving DecidableEq, Repr

/-- Transaction.TYPE_CHOICES in src/apps/matches/models.py. -/
inductive TransactionType
  | DEPOSIT | BOOKING | REFUND | BONUS
deriving DecidableEq, Repr

/-- Turf model: the venue.  `gps_lat`/`gps_long` are nullable floats; the
JSON `location` fallback (`loc.get('lat') or loc.get('latitude')`, same for
longitude) is modelled by the two resolved optional values `loc_lat`/`loc_lng`. -/
structure Turf where
  id : Nat
  gps_lat : Option ℚ
  gps_long : Option ℚ
  loc_lat : Option ℚ
  loc_lng : Option ℚ
deriving DecidableEq, Repr

/-- Match model (views.py variant).  Field names follow models.py. -/
structure MatchRow where
  id : Nat
  captain : Nat
  total_spots : Nat
  spots_filled : Nat
  max_join_allowed : Nat
  price_per_player : ℚ
  status : MatchStatus
  ground_status : GroundStatus
deriving DecidableEq, Repr

/-- Vacancy model: `count_needed` is the remaining-slots counter that
join_vacancy decrements; it is an integer in Python, so modelled as `Int`. -/
structure Vacancy where
  id : Nat
  matchId : Nat
  count_needed : Int
  cost_per_head : ℚ
  status : VacancyStatus
deriving DecidableEq, Repr

/-- EscrowTransaction model. -/
structure EscrowTransaction where
  matchId : Nat
  payer : Nat
  amount : ℚ
  status : EscrowStatus
deriving DecidableEq, Repr

/-- MatchJoinRequest model. -/
structure MatchJoinRequest where
  id : Nat
  matchId : Nat
  player : Nat
  status : JoinRequestStatus
  deposit_paid : ℚ
  razorpay_order_id : String
deriving DecidableEq, Repr

/-- MatchPlayer model. -/
structure MatchPlayer where
  matchId : Nat
  player : Nat
  final_amount_paid : ℚ
  has_checked_in : Bool
  check_in_location : Option (ℚ × ℚ)
deriving DecidableEq, Repr

/-- GroundCheckin model (views.py variant). -/
structure GroundCheckin where
  matchId : Nat
  userId : Nat
  user_lat : ℚ
  user_long : ℚ
  distance_meters : ℚ
  is_successful : Bool
deriving DecidableEq, Repr

/-- Transaction model (deposit/refund records). -/
structure TransactionRow where
  userId : Nat
  matchId : Nat
  amount : ℚ
  type : TransactionType
  is_successful : Bool
deriving DecidableEq, Repr

/-- MatchScorecard model (OneToOne with Match). -/
structure MatchScorecard where
  winning_team_name : String
  summary_text : String
deriving DecidableEq, Repr

/-- PlayerMatchStat model. -/
structure PlayerMatchStat where
  matchId : Nat
  userId : Nat
  runs : Int
  wickets : Int
  catches : Int
deriving DecidableEq, Repr

/-- The aggregate statistics fields of the User model that
submit_scorecard mutates (`total_runs`, `total_wickets`, `matches_played`). -/
structure UserRow where
  user_id : Nat
  total_runs : Int
  total_wickets : Int
  matches_played : Int
deriving DecidableEq, Repr

/-- Database state seen by a match-scoped view: the match returned by
`self.get_object()` plus the rows of the related tables. -/
structure DB where
  turf : Turf
  matchRow : MatchRow
  vacancies : List Vacancy
  joinRequests : List MatchJoinRequest
  matchPlayers : List MatchPlayer
  escrows : List EscrowTransaction
  checkins : List GroundCheckin
  transactions : List TransactionRow
  scorecard : Option MatchScorecard
  playerStats : List PlayerMatchStat
  users : List UserRow
deriving DecidableEq, Repr

/-- The error responses the handlers in views.py can return. -/
inductive ApiError
  | matchFull
  | alreadyPending
  | alreadyApproved
  | captainCannotJoin
  | vacancyIdRequired
  | vacancyNotFound
  | vacancyNotOpen
  | latLngRequired
  | latLngNotNumeric
  | venueCoordsMissing
  | onlyCaptain
  | requestNotFound
  | requestNotPending
deriving DecidableEq, Repr

/-- Match.can_accept_more_players (models.py line 116): overbooking check. -/
def can_accept_more_players (m : MatchRow) : Bool :=
  m.spots_filled < m.max_join_allowed

/-- Match.is_full (models.py line 120). -/
def is_full (m : MatchRow) : Bool :=
  m.spots_filled ≥ m.total_spots

/-- The check-in proximity threshold (50.0 meters, views.py line 314). -/
def CHECKIN_THRESHOLD_M : ℚ := 50

/-- Venue-coordinate resolution of gps_checkin (views.py lines 297-311):
use `gps_lat`/`gps_long`; when either is null, fall back to the JSON
location for BOTH; fail when either resolved value is still null. -/
def resolveVenueCoords (t : Turf) : Option (ℚ × ℚ) :=
  let p : Option ℚ × Option ℚ :=
    if t.gps_lat.isNone ∨ t.gps_long.isNone then (t.loc_lat, t.loc_lng)
    else (t.gps_lat, t.gps_long)
  match p with
  | (some a, some b) => some (a, b)
  | _ => none

/-- A lat/lng value as received in the request body: absent, present but
not parseable as a float, or a numeric value. -/
inductive CoordInput
  | missing
  | nonNumeric
  | value (q : ℚ)
deriving DecidableEq, Repr

/-- join_vacancy (views.py lines 221-274).  Looks up the vacancy for this
match, rejects non-OPEN or exhausted vacancies, unconditionally creates a
HELD escrow, attaches the player (get_or_create, bumping spots_filled only
on creation), then decrements count_needed and marks FILLED at ≤ 0. -/
def join_vacancy (s : DB) (userId : Nat) (vacancy_id : Option Nat) :
    Except ApiError DB :=
  match vacancy_id with
  | none => .error .vacancyIdRequired
  | some vid =>
    match s.vacancies.find? (fun v => v.id == vid && v.matchId == s.matchRow.id) with
    | none => .error .vacancyNotFound
    | some v =>
      if v.status ≠ VacancyStatus.OPEN ∨ v.count_needed ≤ 0 then
        .error .vacancyNotOpen
      else
        let escrow : EscrowTransaction :=
          { matchId := s.matchRow.id, payer := userId
            amount := v.cost_per_head, status := EscrowStatus.HELD }
        let created :=
          ! s.matchPlayers.any (fun p => p.matchId == s.matchRow.id && p.player == userId)
        let matchPlayers' :=
          if created then
            s.matchPlayers ++
              [{ matchId := s.matchRow.id, player := userId
                 final_amount_paid := v.cost_per_head
                 has_checked_in := false, check_in_location := none }]
          else s.matchPlayers
        let m' :=
          if created then
            { s.matchRow with spots_filled := s.matchRow.spots_filled + 1 }
          else s.matchRow
        let cn := v.count_needed - 1
        let v' : Vacancy :=
          { v with count_needed := cn
                   status := if cn ≤ 0 then VacancyStatus.FILLED else v.status }
        let vacancies' :=
          s.vacancies.map fun x =>
            if x.id == vid && x.matchId == s.matchRow.id then v' else x
        .ok { s with matchRow := m', vacancies := vacancies'
                     matchPlayers := matchPlayers'
                     escrows := s.escrows ++ [escrow] }

/-- gps_checkin (views.py lines 276-337).  `distF` stands for the pure
total function `_haversine_distance_m` (views.py lines 33-42), which
performs no input validation of its own.  Returns the updated state and
the created GroundCheckin row; the HTTP status is 200 iff
`checkin.is_successful`. -/
def gps_checkin (distF : ℚ → ℚ → ℚ → ℚ → ℚ) (s : DB) (userId : Nat)
    (latIn lngIn : CoordInput) : Except ApiError (DB × GroundCheckin) :=
  match latIn, lngIn with
  | .missing, _ => .error .latLngRequired
  | _, .missing => .error .latLngRequired
  | .nonNumeric, _ => .error .latLngNotNumeric
  | _, .nonNumeric => .error .latLngNotNumeric
  | .value lat, .value lng =>
    match resolveVenueCoords s.turf with
    | none => .error .venueCoordsMissing
    | some (venue_lat, venue_lng) =>
      let distance_m := distF lat lng venue_lat venue_lng
      let is_success : Bool := distance_m ≤ CHECKIN_THRESHOLD_M
      let checkin : GroundCheckin :=
        { matchId := s.matchRow.id, userId := userId
          user_lat := lat, user_long := lng
          distance_meters := distance_m, is_successful := is_success }
      let matchPlayers' :=
        s.matchPlayers.map fun p =>
          if p.matchId == s.matchRow.id && p.player == userId then
            { p with has_checked_in := is_success
                     check_in_location := some (lat, lng) }
          else p
      let m' :=
        if is_success ∧ s.matchRow.ground_status ≠ GroundStatus.SECURED then
          { s.matchRow with ground_status := GroundStatus.SECURED }
        else s.matchRow
      .ok ({ s with matchRow := m', matchPlayers := matchPlayers'
                    checkins := s.checkins ++ [checkin] }, checkin)

/-- The request-creation tail of MatchViewSet.join (views.py lines 135-191):
captain check, razorpay order id (fallback path, opaque here), then create
the PENDING MatchJoinRequest with the fixed 250 deposit. -/
def joinCreate (s : DB) (userId : Nat) (requestId : Nat) : Except ApiError DB :=
  if s.matchRow.captain = userId then .error .captainCannotJoin
  else
    let order_id := "test_order_" ++ toString s.matchRow.id ++ "_" ++ toString userId
    .ok { s with joinRequests := s.joinRequests ++
          [{ id := requestId, matchId := s.matchRow.id, player := userId
             status := JoinRequestStatus.PENDING, deposit_paid := 250
             razorpay_order_id := order_id }] }

/-- MatchViewSet.join (views.py lines 101-191).  `requestId` models the
fresh primary key of the created row.  Checks, in source order: overbooking
ceiling, existing PENDING/APPROVED request, captain; a REJECTED existing
request falls through to creation. -/
def join_match (s : DB) (userId : Nat) (requestId : Nat) : Except ApiError DB :=
  if ¬ can_accept_more_players s.matchRow then .error .matchFull
  else
    match s.joinRequests.find? (fun r => r.matchId == s.matchRow.id && r.player == userId) with
    | some r =>
      if r.status = JoinRequestStatus.PENDING then .error .alreadyPending
      else if r.status = JoinRequestStatus.APPROVED then .error .alreadyApproved
      else joinCreate s userId requestId
    | none => joinCreate s userId requestId

/-- approve_join_request (views.py lines 439-506): captain approves a
pending request; bumps spots_filled, creates the MatchPlayer and the
deposit Transaction. -/
def approve_join_request (s : DB) (request_id : Nat) (actor : Nat) :
    Except ApiError DB :=
  match s.joinRequests.find? (fun r => r.id == request_id) with
  | none => .error .requestNotFound
  | some jr =>
    if s.matchRow.captain ≠ actor then .error .onlyCaptain
    else if jr.status ≠ JoinRequestStatus.PENDING then .error .requestNotPending
    else if ¬ can_accept_more_players s.matchRow then .error .matchFull
    else
      let joinRequests' :=
        s.joinRequests.map fun r =>
          if r.id == request_id then { r with status := JoinRequestStatus.APPROVED } else r
      let m' := { s.matchRow with spots_filled := s.matchRow.spots_filled + 1 }
      let final_amount := s.matchRow.price_per_player - jr.deposit_paid
      .ok { s with joinRequests := joinRequests', matchRow := m'
                   matchPlayers := s.matchPlayers ++
                     [{ matchId := s.matchRow.id, player := jr.player
                        final_amount_paid := final_amount
                        has_checked_in := false, check_in_location := none }]
                   transactions := s.transactions ++
                     [{ userId := jr.player, matchId := s.matchRow.id
                        amount := jr.deposit_paid
                        type := TransactionType.DEPOSIT, is_successful := true }] }

/-- One entry of the `players` payload of submit_scorecard; `user_id` is
`none` when the item carries no (truthy) user id and is skipped. -/
structure PlayerItem where
  user_id : Option Nat
  runs : Int
  wickets : Int
  catches : Int
deriving DecidableEq, Repr

/-- The per-item body of the players loop in submit_scorecard (views.py
lines 375-404): skip missing/unknown users, update_or_create the
PlayerMatchStat, and add the item's figures to the user's aggregates
(`matches_played` only when the stat row was created). -/
def applyStatItem (s : DB) (it : PlayerItem) : DB :=
  match it.user_id with
  | none => s
  | some uid =>
    match s.users.find? (fun u => u.user_id == uid) with
    | none => s
    | some _ =>
      let created :=
        (s.playerStats.find? (fun st => st.matchId == s.matchRow.id && st.userId == uid)).isNone
      let playerStats' :=
        if created then
          s.playerStats ++
            [{ matchId := s.matchRow.id, userId := uid
               runs := it.runs, wickets := it.wickets, catches := it.catches }]
        else
          s.playerStats.map fun st =>
            if st.matchId == s.matchRow.id && st.userId == uid then
              { st with runs := it.runs, wickets := it.wickets, catches := it.catches }
            else st
      let users' :=
        s.users.map fun u =>
          if u.user_id == uid then
            { u with total_runs := u.total_runs + it.runs
                     total_wickets := u.total_wickets + it.wickets
                     matches_played := u.matches_played + (if created then 1 else 0) }
          else u
      { s with playerStats := playerStats', users := users' }

/-- The escrow bulk release of submit_scorecard (views.py line 412):
`EscrowTransaction.objects.filter(match=match, status='HELD').update(status='RELEASED')`. -/
def releaseHeldFor (matchId : Nat) (e : EscrowTransaction) : EscrowTransaction :=
  if e.matchId == matchId && e.status == EscrowStatus.HELD then
    { e with status := EscrowStatus.RELEASED }
  else e

/-- submit_scorecard (views.py lines 339-421): captain only; upserts the
scorecard, processes player stats, marks the match COMPLETED if needed,
then releases every HELD escrow of the match. -/
def submit_scorecard (s : DB) (actor : Nat) (winning_team_name summary_text : String)
    (players : List PlayerItem) : Except ApiError DB :=
  if s.matchRow.captain ≠ actor then .error .onlyCaptain
  else
    let s1 := { s with scorecard := some { winning_team_name := winning_team_name
                                           summary_text := summary_text } }
    let s2 := players.foldl applyStatItem s1
    let s3 :=
      if s2.matchRow.status ≠ MatchStatus.COMPLETED then
        { s2 with matchRow := { s2.matchRow with status := MatchStatus.COMPLETED } }
      else s2
    .ok { s3 with escrows := s3.escrows.map (releaseHeldFor s3.matchRow.id) }

/-- Number of HELD escrows of the current match paid by `u`. -/
def heldEscrowCount (s : DB) (u : Nat) : Nat :=
  (s.escrows.filter fun e =>
    e.matchId == s.matchRow.id && e.payer == u && e.status == EscrowStatus.HELD).length

/-- The has_checked_in flag of the (current match, u) MatchPlayer row. -/
def playerCheckedIn (s : DB) (u : Nat) : Option Bool :=
  (s.matchPlayers.find? fun p => p.matchId == s.matchRow.id && p.player == u).map
    (·.has_checked_in)

/-- One gps_checkin attempt with numeric coordinates, as a state step: an
attempt whose handler returns an error leaves the state unchanged (the
view mutates nothing before returning an error response). -/
def checkinStep (distF : ℚ → ℚ → ℚ → ℚ → ℚ) (userId : Nat)
    (st : DB) (a : ℚ × ℚ) : DB :=
  match gps_checkin distF st userId (.value a.1) (.value a.2) with
  | .ok (st', _) => st'
  | .error _ => st

/-- A sequence of gps_checkin attempts by the same user with numeric
coordinates. -/
def runCheckins (distF : ℚ → ℚ → ℚ → ℚ → ℚ) (userId : Nat)
    (attempts : List (ℚ × ℚ)) (s : DB) : DB :=
  attempts.foldl (checkinStep distF userId) s

/-- The operations of the join/approve flow, for invariant statements. -/
inductive LifecycleOp
  | joinOp (userId : Nat) (requestId : Nat)
  | approveOp (requestId : Nat) (actorId : Nat)
deriving DecidableEq, Repr

/-- Apply one lifecycle operation; an error response leaves the state unchanged. -/
def applyOp (s : DB) (op : LifecycleOp) : DB :=
  match op with
  | .joinOp u rid =>
    match join_match s u rid with
    | .ok s' => s'
    | .error _ => s
  | .approveOp rid a =>
    match approve_join_request s rid a with
    | .ok s' => s'
    | .error _ => s

/-- Run a sequence of lifecycle operations. -/
def runOps (ops : List LifecycleOp) (s : DB) : DB :=
  ops.foldl applyOp s

/-!
The second, admin-panel schema variant (src/apps/matches/admin.py).  Its
model classes (`Venue`-keyed Match with `is_cancelled`, `start_time` as a
datetime, Vacancy with `filled_count` and an EXPIRED status) are not under
src/; the structures below carry exactly the fields the admin actions read
and write, with `start_time` and `timezone.now()` as integer timestamps.
-/

namespace Adm

/-- Vacancy status of the admin variant (spec §3: OPEN, FILLED, EXPIRED). -/
inductive VacStatus
  | OPEN | FILLED | EXPIRED
deriving DecidableEq, Repr

/-- The admin-variant Match row: the fields cancel_matches touches. -/
structure MatchRow where
  match_id : Nat
  start_time : Int
  is_cancelled : Bool
  ground_status : GroundStatus
deriving DecidableEq, Repr

/-- The admin-variant EscrowTransaction row. -/
structure EscrowRow where
  escrow_id : Nat
  matchId : Nat
  amount : ℚ
  status : EscrowStatus
deriving DecidableEq, Repr

/-- The admin-variant Vacancy row. -/
structure VacancyRow where
  vacancy_id : Nat
  matchId : Nat
  count_needed : Int
  filled_count : Int
  status : VacStatus
deriving DecidableEq, Repr

/-- Admin-site database state. -/
structure DB where
  matchRows : List MatchRow
  escrows : List EscrowRow
  vacancies : List VacancyRow
deriving DecidableEq, Repr

/-- MatchAdmin.cancel_matches (admin.py lines 123-130): on the selected
queryset, filter to matches with `start_time` strictly after `now` and not
yet cancelled, and set `is_cancelled=True` on those.  Returns the new
state and the updated-row count shown in the admin message.  Nothing else
is touched: no escrow refund, no vacancy expiry. -/
def cancel_matches (db : DB) (selected : List Nat) (now : Int) : DB × Nat :=
  let hit : MatchRow → Bool := fun m =>
    selected.contains m.match_id && decide (m.start_time > now) && !m.is_cancelled
  let rows' := db.matchRows.map fun m =>
    if hit m then { m with is_cancelled := true } else m
  ({ db with matchRows := rows' }, (db.matchRows.filter hit).length)

end Adm

/-!  Helper lemmas about `List.find?` under the map-style row updates. -/

/-- Updating, via `map`, exactly the rows matching `p` with an update that
preserves `p` commutes with `find? p`. -/
theorem find?_map_upd {α : Type} (p : α → Bool) (upd : α → α)
    (hpres : ∀ x, p (upd x) = p x) (l : List α) :
    (l.map fun x => if p x then upd x else x).find? p = (l.find? p).map upd := by
  induction l with
  | nil => rfl
  | cons a t ih =>
    by_cases h : p a = true
    · simp [List.map_cons, h, List.find?_cons_of_pos, hpres]
    · have h' : p a = false := by simpa using h
      simp [List.map_cons, h', List.find?_cons_of_neg _ h, ih]

/-- Replacing, via `map`, the rows matching `p` by a fixed row `v'` that
itself matches `p` makes `find? p` return `v'`, provided some row matched. -/
theorem find?_map_replace {α : Type} (p : α → Bool) (v v' : α)
    (hv' : p v' = true) (l : List α) (hfound : l.find? p = some v) :
    (l.map fun x => if p x then v' else x).find? p = some v' := by
  induction l with
  | nil => simp at hfound
  | cons a t ih =>
    by_cases h : p a = true
    · simp [List.map_cons, h, List.find?_cons_of_pos, hv']
    · have h' : p a = false := by simpa using h
      rw [List.find?_cons_of_neg _ h] at hfound
      simp [List.map_cons, h', List.find?_cons_of_neg _ h, ih hfound]

/-!  Shared facts about gps_checkin. -/

/-- The explicit result of gps_checkin on numeric inputs when the venue
coordinates resolve: the full success-path state update of views.py
lines 313-337, spelled out. -/
theorem gps_checkin_eq
    (distF : ℚ → ℚ → ℚ → ℚ → ℚ) (s : DB) (u : Nat) (lat lng vlat vlng : ℚ)
    (hv : resolveVenueCoords s.turf = some (vlat, vlng)) :
    gps_checkin distF s u (.value lat) (.value lng) =
      .ok ({ s with
              matchRow :=
                if decide (distF lat lng vlat vlng ≤ CHECKIN_THRESHOLD_M) = true ∧
                    s.matchRow.ground_status ≠ GroundStatus.SECURED then
                  { s.matchRow with ground_status := GroundStatus.SECURED }
                else s.matchRow
              matchPlayers :=
                s.matchPlayers.map fun p =>
                  if p.matchId == s.matchRow.id && p.player == u then
                    { p with
                        has_checked_in :=
                          decide (distF lat lng vlat vlng ≤ CHECKIN_THRESHOLD_M)
                        check_in_location := some (lat, lng) }
                  else p
              checkins := s.checkins ++
                [{ matchId := s.matchRow.id, userId := u
                   user_lat := lat, user_long := lng
                   distance_meters := distF lat lng vlat vlng
                   is_successful :=
                     decide (distF lat lng vlat vlng ≤ CHECKIN_THRESHOLD_M) }] },
            { matchId := s.matchRow.id, userId := u
              user_lat := lat, user_long := lng
              distance_meters := distF lat lng vlat vlng
              is_successful :=
                decide (distF lat lng vlat vlng ≤ CHECKIN_THRESHOLD_M) }) := by
  unfold gps_checkin
  rw [hv]

/-- On numeric inputs with a resolvable venue, gps_checkin never errors:
it records the computed distance and succeeds exactly at distance ≤ 50 m. -/
theorem gps_checkin_value_spec
    (distF : ℚ → ℚ → ℚ → ℚ → ℚ) (s : DB) (u : Nat) (lat lng vlat vlng : ℚ)
    (hv : resolveVenueCoords s.turf = some (vlat, vlng)) :
    ∃ s' c, gps_checkin distF s u (.value lat) (.value lng) = .ok (s', c) ∧
      c.distance_meters = distF lat lng vlat vlng ∧
      c.is_successful = decide (distF lat lng vlat vlng ≤ CHECKIN_THRESHOLD_M) :=
  ⟨_, _, gps_checkin_eq distF s u lat lng vlat vlng hv, rfl, rfl⟩

/-- A check-in attempt does not change the venue row. -/
theorem checkinStep_turf (distF : ℚ → ℚ → ℚ → ℚ → ℚ) (u : Nat) (s : DB)
    (a : ℚ × ℚ) (vlat vlng : ℚ)
    (hv : resolveVenueCoords s.turf = some (vlat, vlng)) :
    (checkinStep distF u s a).turf = s.turf := by
  unfold checkinStep
  rw [gps_checkin_eq distF s u a.1 a.2 vlat vlng hv]

/-- A check-in attempt overwrites the player's has_checked_in flag (when
the MatchPlayer row exists) with this attempt's outcome. -/
theorem checkinStep_flag (distF : ℚ → ℚ → ℚ → ℚ → ℚ) (u : Nat) (s : DB)
    (a : ℚ × ℚ) (vlat vlng : ℚ)
    (hv : resolveVenueCoords s.turf = some (vlat, vlng)) :
    playerCheckedIn (checkinStep distF u s a) u =
      (playerCheckedIn s u).map
        (fun _ => decide (distF a.1 a.2 vlat vlng ≤ CHECKIN_THRESHOLD_M)) := by
  unfold checkinStep
  rw [gps_checkin_eq distF s u a.1 a.2 vlat vlng hv]
  unfold playerCheckedIn
  dsimp only
  have hid : (if decide (distF a.1 a.2 vlat vlng ≤ CHECKIN_THRESHOLD_M) = true ∧
      s.matchRow.ground_status ≠ GroundStatus.SECURED then
      { s.matchRow with ground_status := GroundStatus.SECURED }
    else s.matchRow).id = s.matchRow.id := by split <;> rfl
  rw [hid]
  rw [@find?_map_upd MatchPlayer (fun p => p.matchId == s.matchRow.id && p.player == u)
        (fun p => { p with
            has_checked_in := decide (distF a.1 a.2 vlat vlng ≤ CHECKIN_THRESHOLD_M)
            check_in_location := some (a.1, a.2) }) (fun x => rfl) s.matchPlayers]
  cases List.find? (fun p => p.matchId == s.matchRow.id && p.player == u) s.matchPlayers <;> rfl

/-!  Concrete example states and distance functions for closed statements. -/

/-- A distance function that reports 0 meters everywhere. -/
def distConst0 : ℚ → ℚ → ℚ → ℚ → ℚ := fun _ _ _ _ => 0

/-- A distance function that reports exactly 50 meters everywhere. -/
def distConst50 : ℚ → ℚ → ℚ → ℚ → ℚ := fun _ _ _ _ => 50

/-- A distance function that reports 0 meters at latitude 0 and 1000
meters elsewhere. -/
def distByLat : ℚ → ℚ → ℚ → ℚ → ℚ := fun lat _ _ _ => if lat = 0 then 0 else 1000

/-- Example venue with explicit GPS coordinates (10, 20). -/
def exTurf : Turf :=
  { id := 1, gps_lat := some 10, gps_long := some 20, loc_lat := none, loc_lng := none }

/-- Example match: captain 1, empty, ceiling 20, ground PENDING. -/
def exMatch : MatchRow :=
  { id := 5, captain := 1, total_spots := 16, spots_filled := 0
    max_join_allowed := 20, price_per_player := 300
    status := MatchStatus.PENDING, ground_status := GroundStatus.PENDING }

/-- Example state with no related rows. -/
def exDB : DB :=
  { turf := exTurf, matchRow := exMatch, vacancies := [], joinRequests := []
    matchPlayers := [], escrows := [], checkins := [], transactions := []
    scorecard := none, playerStats := [], users := [] }

/-- Example state whose match already has the terminal BOOKED ground status. -/
def exDBbooked : DB :=
  { exDB with matchRow := { exMatch with ground_status := GroundStatus.BOOKED } }

/-- Example state in which user 7 is a MatchPlayer who has checked in
successfully before. -/
def exDBplayer : DB :=
  { exDB with matchPlayers :=
      [{ matchId := 5, player := 7, final_amount_paid := 0
         has_checked_in := true, check_in_location := none }] }

/-- C1: the claim states that a check-in succeeds iff the computed
distance is strictly below 50 m and that exactly 50 m fails.  The code
(views.py line 314) uses `distance_m <= 50.0`: at a computed distance of
exactly 50 m the attempt SUCCEEDS, refuting the claim. -/
theorem C1_counterexample :
    (gps_checkin distConst50 exDB 7 (.value 10) (.value 20)).toOption.map
      (fun r => (r.2.distance_meters, r.2.is_successful)) = some (50, true) := by decide

/-- C1 (amended): with venue coordinates configured, a check-in attempt
with numeric coordinates always yields a response (never a validation
error), records the computed distance, and succeeds if and only if that
distance is at most (≤, not <) the 50 m threshold. -/
theorem C1_checkin_success_iff_within_50m
    (distF : ℚ → ℚ → ℚ → ℚ → ℚ) (s : DB) (u : Nat) (lat lng vlat vlng : ℚ)
    (hv : resolveVenueCoords s.turf = some (vlat, vlng)) :
    ∃ s' c, gps_checkin distF s u (.value lat) (.value lng) = .ok (s', c) ∧
      c.distance_meters = distF lat lng vlat vlng ∧
      (c.is_successful = true ↔ distF lat lng vlat vlng ≤ CHECKIN_THRESHOLD_M) := by
  obtain ⟨s', c, heq, hd, hs⟩ := gps_checkin_value_spec distF s u lat lng vlat vlng hv
  exact ⟨s', c, heq, hd, by rw [hs]; exact decide_eq_true_iff⟩

/-- C1 witness: at the exact venue coordinates (distance 0 ≤ 50) the
check-in succeeds. -/
theorem C1_checkin_success_iff_within_50m_witness :
    (resolveVenueCoords exDB.turf = some (10, 20)) ∧
    (∃ s' c, gps_checkin distConst0 exDB 3 (.value 10) (.value 20) = .ok (s', c) ∧
      c.distance_meters = distConst0 10 20 10 20 ∧
      (c.is_successful = true ↔ distConst0 10 20 10 20 ≤ CHECKIN_THRESHOLD_M)) :=
  ⟨by decide, C1_checkin_success_iff_within_50m distConst0 exDB 3 10 20 10 20 (by decide)⟩

/-- C6: the claim states the distance computation rejects out-of-range
coordinates with an InvalidCoordinate error.  Neither
_haversine_distance_m (views.py lines 33-42) nor gps_checkin performs any
range check: latitude 100 / longitude 200 are happily processed and a
distance is returned. -/
theorem C6_counterexample :
    (gps_checkin distConst0 exDB 7 (.value 100) (.value 200)).toOption.map
      (fun r => r.2.distance_meters) = some 0 := by decide

/-- C6 (amended): no coordinate-range validation exists.  Even for
latitudes outside −90..90 or longitudes outside −180..180 the check-in
proceeds and returns the computed distance; the only input errors are
missing or non-numeric lat/lng. -/
theorem C6_no_coordinate_range_validation
    (distF : ℚ → ℚ → ℚ → ℚ → ℚ) (s : DB) (u : Nat) (lat lng vlat vlng : ℚ)
    (hv : resolveVenueCoords s.turf = some (vlat, vlng))
    (_hout : lat < -90 ∨ 90 < lat ∨ lng < -180 ∨ 180 < lng) :
    ∃ s' c, gps_checkin distF s u (.value lat) (.value lng) = .ok (s', c) ∧
      c.distance_meters = distF lat lng vlat vlng := by
  obtain ⟨s', c, heq, hd, _⟩ := gps_checkin_value_spec distF s u lat lng vlat vlng hv
  exact ⟨s', c, heq, hd⟩

/-- C6 witness: latitude 100 (out of range) is accepted. -/
theorem C6_no_coordinate_range_validation_witness :
    (resolveVenueCoords exDB.turf = some (10, 20)) ∧ (90 < (100 : ℚ)) ∧
    (∃ s' c, gps_checkin distConst0 exDB 7 (.value 100) (.value 200) = .ok (s', c) ∧
      c.distance_meters = distConst0 100 200 10 20) :=
  ⟨by decide, by decide,
    C6_no_coordinate_range_validation distConst0 exDB 7 100 200 10 20 (by decide)
      (Or.inr (Or.inl (by decide)))⟩

/-- C4: the claim states a successful check-in never downgrades a BOOKED
ground status.  The code (views.py line 331) only skips the update when
the status is already SECURED, so a successful check-in on a BOOKED match
downgrades it to SECURED, refuting the claim. -/
theorem C4_counterexample :
    (gps_checkin distConst0 exDBbooked 7 (.value 10) (.value 20)).toOption.map
      (fun r => (r.2.is_successful, r.1.matchRow.ground_status)) =
      some (true, GroundStatus.SECURED) := by decide

/-- C4 (amended): a successful check-in sets the ground status to SECURED
whenever it is not already SECURED — including downgrading a terminal
BOOKED status — and a failed check-in leaves it unchanged. -/
theorem C4_success_forces_secured
    (distF : ℚ → ℚ → ℚ → ℚ → ℚ) (s : DB) (u : Nat) (lat lng vlat vlng : ℚ)
    (hv : resolveVenueCoords s.turf = some (vlat, vlng)) :
    ∃ s' c, gps_checkin distF s u (.value lat) (.value lng) = .ok (s', c) ∧
      s'.matchRow.ground_status =
        (if c.is_successful then GroundStatus.SECURED else s.matchRow.ground_status) := by
  refine ⟨_, _, gps_checkin_eq distF s u lat lng vlat vlng hv, ?_⟩
  by_cases hle : distF lat lng vlat vlng ≤ CHECKIN_THRESHOLD_M
  · by_cases hg : s.matchRow.ground_status = GroundStatus.SECURED
    · simp [hle, hg]
    · simp [hle, hg]
  · simp [hle]

/-- C4 witness: a successful check-in on a BOOKED match yields ground
status SECURED, matching the if-then-else of the amended statement. -/
theorem C4_success_forces_secured_witness :
    (resolveVenueCoords exDBbooked.turf = some (10, 20)) ∧
    (∃ s' c, gps_checkin distConst0 exDBbooked 7 (.value 10) (.value 20) = .ok (s', c) ∧
      s'.matchRow.ground_status =
        (if c.is_successful then GroundStatus.SECURED else exDBbooked.matchRow.ground_status)) :=
  ⟨by decide, C4_success_forces_secured distConst0 exDBbooked 7 10 20 10 20 (by decide)⟩

/-- Unfolding a check-in sequence one attempt at a time. -/
theorem runCheckins_cons (distF : ℚ → ℚ → ℚ → ℚ → ℚ) (u : Nat)
    (a : ℚ × ℚ) (t : List (ℚ × ℚ)) (s : DB) :
    runCheckins distF u (a :: t) s = runCheckins distF u t (checkinStep distF u s a) := rfl

/-- A check-in sequence never changes the venue row and never creates or
deletes the player's MatchPlayer row. -/
theorem runCheckins_preserves (distF : ℚ → ℚ → ℚ → ℚ → ℚ) (u : Nat)
    (vlat vlng : ℚ) (l : List (ℚ × ℚ)) (s : DB)
    (hv : resolveVenueCoords s.turf = some (vlat, vlng)) :
    (runCheckins distF u l s).turf = s.turf ∧
    (playerCheckedIn (runCheckins distF u l s) u).isSome =
      (playerCheckedIn s u).isSome := by
  induction l generalizing s with
  | nil => exact ⟨rfl, rfl⟩
  | cons a t ih =>
    have hturf := checkinStep_turf distF u s a vlat vlng hv
    have hflag := checkinStep_flag distF u s a vlat vlng hv
    have hv' : resolveVenueCoords (checkinStep distF u s a).turf = some (vlat, vlng) := by
      rw [hturf]; exact hv
    obtain ⟨ht, hf⟩ := ih (checkinStep distF u s a) hv'
    rw [runCheckins_cons]
    refine ⟨by rw [ht, hturf], ?_⟩
    rw [hf, hflag]
    cases playerCheckedIn s u <;> rfl

/-- C9: the has_checked_in flag always equals the outcome of the MOST
RECENT gps_checkin attempt — a failed attempt overwrites an earlier
success (views.py lines 325-329 update the flag with `is_success`
unconditionally). -/
theorem C9_flag_tracks_most_recent_attempt
    (distF : ℚ → ℚ → ℚ → ℚ → ℚ) (s : DB) (u : Nat) (vlat vlng : ℚ)
    (prior : List (ℚ × ℚ)) (a : ℚ × ℚ)
    (hv : resolveVenueCoords s.turf = some (vlat, vlng))
    (hp : (playerCheckedIn s u).isSome = true) :
    playerCheckedIn (runCheckins distF u (prior ++ [a]) s) u =
      some (decide (distF a.1 a.2 vlat vlng ≤ CHECKIN_THRESHOLD_M)) := by
  have hsplit : runCheckins distF u (prior ++ [a]) s =
      checkinStep distF u (runCheckins distF u prior s) a := by
    unfold runCheckins
    rw [List.foldl_append]
    rfl
  obtain ⟨ht, hf⟩ := runCheckins_preserves distF u vlat vlng prior s hv
  have hv' : resolveVenueCoords (runCheckins distF u prior s).turf = some (vlat, vlng) := by
    rw [ht]; exact hv
  rw [hsplit, checkinStep_flag distF u (runCheckins distF u prior s) a vlat vlng hv']
  have hsome : (playerCheckedIn (runCheckins distF u prior s) u).isSome = true := by
    rw [hf]; exact hp
  obtain ⟨b0, hb0⟩ := Option.isSome_iff_exists.mp hsome
  rw [hb0]
  rfl

/-- C9 witness: user 7 checked in successfully earlier; the prior attempt
at latitude 0 succeeds (0 m) and the final attempt at latitude 1 fails
(1000 m), leaving the flag false. -/
theorem C9_flag_tracks_most_recent_attempt_witness :
    (resolveVenueCoords exDBplayer.turf = some (10, 20)) ∧
    ((playerCheckedIn exDBplayer 7).isSome = true) ∧
    playerCheckedIn (runCheckins distByLat 7 ([(0, 0)] ++ [(1, 1)]) exDBplayer) 7 =
      some (decide (distByLat 1 1 10 20 ≤ CHECKIN_THRESHOLD_M)) :=
  ⟨by decide, by decide,
    C9_flag_tracks_most_recent_attempt distByLat exDBplayer 7 10 20 [(0, 0)] (1, 1)
      (by decide) (by decide)⟩

/-!  Shared facts about join_vacancy. -/

/-- The explicit result of a successful join_vacancy: the state update of
views.py lines 243-274 spelled out. -/
theorem join_vacancy_eq (s : DB) (u vid : Nat) (v : Vacancy)
    (hfind : s.vacancies.find? (fun x => x.id == vid && x.matchId == s.matchRow.id) = some v)
    (hopen : v.status = VacancyStatus.OPEN) (hpos : 0 < v.count_needed) :
    join_vacancy s u (some vid) = .ok
      { s with
          matchRow :=
            if ! s.matchPlayers.any (fun p => p.matchId == s.matchRow.id && p.player == u) then
              { s.matchRow with spots_filled := s.matchRow.spots_filled + 1 }
            else s.matchRow
          vacancies :=
            s.vacancies.map fun x =>
              if x.id == vid && x.matchId == s.matchRow.id then
                { v with count_needed := v.count_needed - 1
                         status := if v.count_needed - 1 ≤ 0 then VacancyStatus.FILLED
                                   else v.status }
              else x
          matchPlayers :=
            if ! s.matchPlayers.any (fun p => p.matchId == s.matchRow.id && p.player == u) then
              s.matchPlayers ++
                [{ matchId := s.matchRow.id, player := u
                   final_amount_paid := v.cost_per_head
                   has_checked_in := false, check_in_location := none }]
            else s.matchPlayers
          escrows := s.escrows ++
            [{ matchId := s.matchRow.id, payer := u
               amount := v.cost_per_head, status := EscrowStatus.HELD }] } := by
  unfold join_vacancy
  dsimp only
  rw [hfind]
  dsimp only
  rw [if_neg (by rintro (hne | hle); exacts [hne hopen, by omega])]

/-- join_vacancy rejects a vacancy that is not OPEN or has no remaining
count, with the 'Vacancy is already filled.' error. -/
theorem join_vacancy_reject (s : DB) (u vid : Nat) (v : Vacancy)
    (hfind : s.vacancies.find? (fun x => x.id == vid && x.matchId == s.matchRow.id) = some v)
    (hno : v.status ≠ VacancyStatus.OPEN ∨ v.count_needed ≤ 0) :
    join_vacancy s u (some vid) = .error ApiError.vacancyNotOpen := by
  unfold join_vacancy
  dsimp only
  rw [hfind]
  dsimp only
  rw [if_pos hno]

/-- A successful join_vacancy presupposes a resolvable, OPEN vacancy with
remaining count: inversion of the guards. -/
theorem join_vacancy_ok_inv (s : DB) (u vid : Nat) (s' : DB)
    (h : join_vacancy s u (some vid) = .ok s') :
    ∃ v, s.vacancies.find? (fun x => x.id == vid && x.matchId == s.matchRow.id) = some v ∧
      v.status = VacancyStatus.OPEN ∧ 0 < v.count_needed := by
  unfold join_vacancy at h
  dsimp only at h
  cases hfind : s.vacancies.find? (fun x => x.id == vid && x.matchId == s.matchRow.id) with
  | none => rw [hfind] at h; simp at h
  | some v =>
    rw [hfind] at h
    dsimp only at h
    by_cases hguard : v.status ≠ VacancyStatus.OPEN ∨ v.count_needed ≤ 0
    · rw [if_pos hguard] at h
      simp at h
    · push_neg at hguard
      exact ⟨v, rfl, hguard.1, by omega⟩

/-- Example state with one OPEN vacancy (id 11) with a single remaining
slot at 200 per head. -/
def exDBvac1 : DB :=
  { exDB with vacancies :=
      [{ id := 11, matchId := 5, count_needed := 1
         cost_per_head := 200, status := VacancyStatus.OPEN }] }

/-- The state after user 8 joins the last slot of `exDBvac1`. -/
def exDBvac1After : DB :=
  { exDB with
      matchRow := { exMatch with spots_filled := 1 }
      vacancies :=
        [{ id := 11, matchId := 5, count_needed := 0
           cost_per_head := 200, status := VacancyStatus.FILLED }]
      matchPlayers :=
        [{ matchId := 5, player := 8, final_amount_paid := 200
           has_checked_in := false, check_in_location := none }]
      escrows :=
        [{ matchId := 5, payer := 8, amount := 200, status := EscrowStatus.HELD }] }

/-- Field-level characterization of a successful join_vacancy: match id
kept, exactly one new HELD escrow appended for (match, payer), and the
vacancy decremented (FILLED at zero). -/
theorem join_vacancy_ok_fields (s : DB) (u vid : Nat) (s' : DB) (v : Vacancy)
    (hfind : s.vacancies.find? (fun x => x.id == vid && x.matchId == s.matchRow.id) = some v)
    (h : join_vacancy s u (some vid) = .ok s') :
    s'.matchRow.id = s.matchRow.id ∧
    s'.escrows = s.escrows ++
      [{ matchId := s.matchRow.id, payer := u
         amount := v.cost_per_head, status := EscrowStatus.HELD }] ∧
    s'.vacancies.find? (fun x => x.id == vid && x.matchId == s.matchRow.id) =
      some { v with count_needed := v.count_needed - 1
                    status := if v.count_needed - 1 ≤ 0 then VacancyStatus.FILLED
                              else v.status } := by
  obtain ⟨v0, hfind0, hopen, hpos⟩ := join_vacancy_ok_inv s u vid s' h
  rw [hfind] at hfind0
  injection hfind0 with hv0
  subst hv0
  rw [join_vacancy_eq s u vid v hfind hopen hpos] at h
  injection h with h
  subst h
  refine ⟨?_, rfl, ?_⟩
  · dsimp only
    split <;> rfl
  · have hp := List.find?_some hfind
    exact @find?_map_replace Vacancy (fun x => x.id == vid && x.matchId == s.matchRow.id) v
      { v with count_needed := v.count_needed - 1
               status := if v.count_needed - 1 ≤ 0 then VacancyStatus.FILLED else v.status }
      hp s.vacancies hfind

/-- C10: join_vacancy decrements count_needed only when the vacancy is
OPEN with positive count, never drives the counter negative, and marks
the vacancy FILLED exactly when the decrement reaches 0 (views.py lines
240, 262-265). -/
theorem C10_count_needed_guarded_decrement
    (s : DB) (u vid : Nat) (s' : DB)
    (h : join_vacancy s u (some vid) = .ok s') :
    ∃ v, s.vacancies.find? (fun x => x.id == vid && x.matchId == s.matchRow.id) = some v ∧
      v.status = VacancyStatus.OPEN ∧ 0 < v.count_needed ∧
      ∃ v', s'.vacancies.find? (fun x => x.id == vid && x.matchId == s.matchRow.id) = some v' ∧
        v'.count_needed = v.count_needed - 1 ∧ 0 ≤ v'.count_needed ∧
        (v'.status = VacancyStatus.FILLED ↔ v'.count_needed = 0) ∧
        ((∀ w ∈ s.vacancies, 0 ≤ w.count_needed) → ∀ w' ∈ s'.vacancies, 0 ≤ w'.count_needed) := by
  obtain ⟨v, hfind, hopen, hpos⟩ := join_vacancy_ok_inv s u vid s' h
  obtain ⟨hid, hesc, hfd⟩ := join_vacancy_ok_fields s u vid s' v hfind h
  refine ⟨v, hfind, hopen, hpos,
    { v with count_needed := v.count_needed - 1
             status := if v.count_needed - 1 ≤ 0 then VacancyStatus.FILLED else v.status },
    hfd, rfl, by show 0 ≤ v.count_needed - 1; omega, ?_, ?_⟩
  · dsimp only
    by_cases hz : v.count_needed - 1 ≤ 0
    · rw [if_pos hz]
      constructor
      · intro _; omega
      · intro _; rfl
    · rw [if_neg hz, hopen]
      constructor
      · intro hx; exact absurd hx (by decide)
      · intro hx; exact absurd hx (by omega)
  · intro hall w' hw'
    rw [join_vacancy_eq s u vid v hfind hopen hpos] at h
    injection h with h
    subst h
    rcases List.mem_map.mp hw' with ⟨w, hw, rfl⟩
    split
    · show 0 ≤ v.count_needed - 1
      omega
    · exact hall w hw

/-- C10 witness: joining the one-slot OPEN vacancy of `exDBvac1`. -/
theorem C10_count_needed_guarded_decrement_witness :
    (join_vacancy exDBvac1 8 (some 11) = .ok exDBvac1After) ∧
    (∃ v, exDBvac1.vacancies.find?
        (fun x => x.id == 11 && x.matchId == exDBvac1.matchRow.id) = some v ∧
      v.status = VacancyStatus.OPEN ∧ 0 < v.count_needed ∧
      ∃ v', exDBvac1After.vacancies.find?
          (fun x => x.id == 11 && x.matchId == exDBvac1.matchRow.id) = some v' ∧
        v'.count_needed = v.count_needed - 1 ∧ 0 ≤ v'.count_needed ∧
        (v'.status = VacancyStatus.FILLED ↔ v'.count_needed = 0) ∧
        ((∀ w ∈ exDBvac1.vacancies, 0 ≤ w.count_needed) →
          ∀ w' ∈ exDBvac1After.vacancies, 0 ≤ w'.count_needed)) :=
  ⟨rfl, C10_count_needed_guarded_decrement exDBvac1 8 11 exDBvac1After rfl⟩

/-- C7: on a vacancy with exactly one remaining slot, the first join
succeeds, leaves the vacancy at zero remaining slots with status FILLED,
creates a HELD escrow over cost_per_head, and any subsequent join on the
same vacancy is rejected with the vacancy-not-open error (and, the
handler returning before any creation, no escrow). -/
theorem C7_last_slot_join_then_reject
    (s : DB) (A B vid : Nat) (v : Vacancy)
    (hfind : s.vacancies.find? (fun x => x.id == vid && x.matchId == s.matchRow.id) = some v)
    (hopen : v.status = VacancyStatus.OPEN) (hone : v.count_needed = 1) :
    ∃ s', join_vacancy s A (some vid) = .ok s' ∧
      s'.vacancies.find? (fun x => x.id == vid && x.matchId == s.matchRow.id) =
        some { v with count_needed := 0, status := VacancyStatus.FILLED } ∧
      s'.escrows = s.escrows ++
        [{ matchId := s.matchRow.id, payer := A
           amount := v.cost_per_head, status := EscrowStatus.HELD }] ∧
      join_vacancy s' B (some vid) = .error ApiError.vacancyNotOpen := by
  have hpos : 0 < v.count_needed := by omega
  obtain ⟨s', heq⟩ : ∃ s', join_vacancy s A (some vid) = .ok s' :=
    ⟨_, join_vacancy_eq s A vid v hfind hopen hpos⟩
  obtain ⟨hid, hesc, hfd⟩ := join_vacancy_ok_fields s A vid s' v hfind heq
  have htarget : ({ v with
        count_needed := v.count_needed - 1
        status := if v.count_needed - 1 ≤ 0 then VacancyStatus.FILLED else v.status } :
      Vacancy) = { v with count_needed := 0, status := VacancyStatus.FILLED } := by
    rw [hone]
    norm_num
  rw [htarget] at hfd
  refine ⟨s', heq, hfd, hesc, ?_⟩
  refine join_vacancy_reject s' B vid
    { v with count_needed := 0, status := VacancyStatus.FILLED } ?_
    (Or.inl fun hx => VacancyStatus.noConfusion hx)
  rw [hid]
  exact hfd

/-- C7 witness: the spec scenario on `exDBvac1` (count_needed = 1,
cost_per_head = 200): user 8 joins, user 9 is then rejected. -/
theorem C7_last_slot_join_then_reject_witness :
    (exDBvac1.vacancies.find?
      (fun x => x.id == 11 && x.matchId == exDBvac1.matchRow.id) =
      some { id := 11, matchId := 5, count_needed := 1
             cost_per_head := 200, status := VacancyStatus.OPEN }) ∧
    (∃ s', join_vacancy exDBvac1 8 (some 11) = .ok s' ∧
      s'.vacancies.find? (fun x => x.id == 11 && x.matchId == exDBvac1.matchRow.id) =
        some { id := 11, matchId := 5, count_needed := 0
               cost_per_head := 200, status := VacancyStatus.FILLED } ∧
      s'.escrows = exDBvac1.escrows ++
        [{ matchId := exDBvac1.matchRow.id, payer := 8
           amount := 200, status := EscrowStatus.HELD }] ∧
      join_vacancy s' 9 (some 11) = .error ApiError.vacancyNotOpen) :=
  ⟨rfl, C7_last_slot_join_then_reject exDBvac1 8 9 11
    { id := 11, matchId := 5, count_needed := 1
      cost_per_head := 200, status := VacancyStatus.OPEN } rfl rfl rfl⟩

/-- Example state in which user 2 already holds a HELD escrow for the
match and an OPEN vacancy with 3 remaining slots exists. -/
def exDBheld : DB :=
  { exDB with
      vacancies :=
        [{ id := 11, matchId := 5, count_needed := 3
           cost_per_head := 200, status := VacancyStatus.OPEN }]
      matchPlayers :=
        [{ matchId := 5, player := 2, final_amount_paid := 200
           has_checked_in := false, check_in_location := none }]
      escrows :=
        [{ matchId := 5, payer := 2, amount := 200, status := EscrowStatus.HELD }] }

/-- The state after user 2 — who already holds a HELD escrow — joins the
vacancy of `exDBheld` again: a SECOND HELD escrow appears. -/
def exDBheldAfter : DB :=
  { exDBheld with
      vacancies :=
        [{ id := 11, matchId := 5, count_needed := 2
           cost_per_head := 200, status := VacancyStatus.OPEN }]
      escrows :=
        [{ matchId := 5, payer := 2, amount := 200, status := EscrowStatus.HELD },
         { matchId := 5, payer := 2, amount := 200, status := EscrowStatus.HELD }] }

/-- C2: the claim states join_vacancy refuses (AlreadyJoined) to create a
second HELD escrow for a (match, payer) that already has one.  The code
(views.py lines 240-249) performs no such check: user 2 of `exDBheld`
already holds a HELD escrow, joins again successfully, and ends up with
two HELD escrows. -/
theorem C2_counterexample :
    heldEscrowCount exDBheld 2 = 1 ∧
    join_vacancy exDBheld 2 (some 11) = .ok exDBheldAfter ∧
    heldEscrowCount exDBheldAfter 2 = 2 := ⟨rfl, rfl, rfl⟩

/-- C2 (amended): join_vacancy has no AlreadyJoined precondition: EVERY
successful join appends one more HELD escrow for (match, payer), even
when the payer already holds one. -/
theorem C2_join_always_adds_held_escrow
    (s : DB) (u vid : Nat) (s' : DB)
    (h : join_vacancy s u (some vid) = .ok s') :
    heldEscrowCount s' u = heldEscrowCount s u + 1 := by
  obtain ⟨v, hfind, _, _⟩ := join_vacancy_ok_inv s u vid s' h
  obtain ⟨hid, hesc, _⟩ := join_vacancy_ok_fields s u vid s' v hfind h
  unfold heldEscrowCount
  rw [hid, hesc, List.filter_append]
  simp

/-- C2 witness: the double-join of `exDBheld` raises the HELD count from
1 to 2. -/
theorem C2_join_always_adds_held_escrow_witness :
    (join_vacancy exDBheld 2 (some 11) = .ok exDBheldAfter) ∧
    heldEscrowCount exDBheldAfter 2 = heldEscrowCount exDBheld 2 + 1 :=
  ⟨rfl, C2_join_always_adds_held_escrow exDBheld 2 11 exDBheldAfter rfl⟩

/-!  Facts about join / approve for the ceiling invariant. -/

/-- joinCreate never touches the Match row. -/
theorem joinCreate_matchRow (s : DB) (u rid : Nat) (s' : DB)
    (h : joinCreate s u rid = .ok s') : s'.matchRow = s.matchRow := by
  unfold joinCreate at h
  split at h
  · simp at h
  · injection h with h
    rw [← h]

/-- MatchViewSet.join never touches the Match row: it only records a
pending join request. -/
theorem join_match_matchRow (s : DB) (u rid : Nat) (s' : DB)
    (h : join_match s u rid = .ok s') : s'.matchRow = s.matchRow := by
  unfold join_match at h
  split at h
  · simp at h
  · split at h
    · split at h
      · simp at h
      · split at h
        · simp at h
        · exact joinCreate_matchRow s u rid s' h
    · exact joinCreate_matchRow s u rid s' h

/-- A successful approval presupposes the ceiling check and bumps
spots_filled by exactly one, leaving the ceiling unchanged. -/
theorem approve_ok_spec (s : DB) (rid actor : Nat) (s' : DB)
    (h : approve_join_request s rid actor = .ok s') :
    s.matchRow.spots_filled < s.matchRow.max_join_allowed ∧
    s'.matchRow.spots_filled = s.matchRow.spots_filled + 1 ∧
    s'.matchRow.max_join_allowed = s.matchRow.max_join_allowed := by
  unfold approve_join_request at h
  split at h
  · simp at h
  · split at h
    · simp at h
    · split at h
      · simp at h
      · split at h
        · simp at h
        · rename_i hcanNot
          have hcan : can_accept_more_players s.matchRow = true := by
            by_contra hc
            exact hcanNot (by simpa using hc)
          refine ⟨by simpa [can_accept_more_players] using hcan, ?_, ?_⟩
          · injection h with h
            rw [← h]
          · injection h with h
            rw [← h]

/-- Each join/approve step preserves the overbooking-ceiling invariant. -/
theorem applyOp_ceiling (s : DB) (op : LifecycleOp)
    (hinv : s.matchRow.spots_filled ≤ s.matchRow.max_join_allowed) :
    (applyOp s op).matchRow.spots_filled ≤ (applyOp s op).matchRow.max_join_allowed := by
  cases op with
  | joinOp u rid =>
    simp only [applyOp]
    split
    · rename_i s' heq
      rw [join_match_matchRow s u rid s' heq]
      exact hinv
    · exact hinv
  | approveOp rid a =>
    simp only [applyOp]
    split
    · rename_i s' heq
      obtain ⟨hlt, hset, hmax⟩ := approve_ok_spec s rid a s' heq
      rw [hset, hmax]
      omega
    · exact hinv

/-- Example state at the overbooking ceiling (spots_filled = 20 =
max_join_allowed) with an OPEN vacancy left. -/
def exDBfull : DB :=
  { exDB with
      matchRow := { exMatch with spots_filled := 20 }
      vacancies :=
        [{ id := 11, matchId := 5, count_needed := 2
           cost_per_head := 200, status := VacancyStatus.OPEN }] }

/-- C5: the claim states spots_filled never exceeds max_join_allowed
under join, approve and join_vacancy.  join and approve do check the
ceiling, but join_vacancy (views.py lines 252-260) increments
spots_filled without any ceiling check: from the at-ceiling state
`exDBfull` a single join_vacancy pushes spots_filled to 21 > 20. -/
theorem C5_counterexample :
    (exDBfull.matchRow.spots_filled ≤ exDBfull.matchRow.max_join_allowed) ∧
    (join_vacancy exDBfull 9 (some 11)).toOption.map
      (fun s' => (s'.matchRow.spots_filled, s'.matchRow.max_join_allowed)) =
      some (21, 20) := by decide

/-- C5 (amended): the fill count never exceeds the overbooking ceiling
under every sequence of join and approve operations — but not under
join_vacancy, which performs no ceiling check. -/
theorem C5_ceiling_invariant_join_approve
    (ops : List LifecycleOp) (s : DB)
    (hinv : s.matchRow.spots_filled ≤ s.matchRow.max_join_allowed) :
    (runOps ops s).matchRow.spots_filled ≤ (runOps ops s).matchRow.max_join_allowed := by
  induction ops generalizing s with
  | nil => exact hinv
  | cons op t ih => exact ih (applyOp s op) (applyOp_ceiling s op hinv)

/-- C5 witness: a join followed by its approval keeps 1 ≤ 20. -/
theorem C5_ceiling_invariant_join_approve_witness :
    (exDB.matchRow.spots_filled ≤ exDB.matchRow.max_join_allowed) ∧
    (runOps [LifecycleOp.joinOp 2 100, LifecycleOp.approveOp 100 1] exDB).matchRow.spots_filled ≤
      (runOps [LifecycleOp.joinOp 2 100, LifecycleOp.approveOp 100 1] exDB).matchRow.max_join_allowed :=
  ⟨by decide,
    C5_ceiling_invariant_join_approve [LifecycleOp.joinOp 2 100, LifecycleOp.approveOp 100 1]
      exDB (by decide)⟩

/-!  Facts about submit_scorecard. -/

/-- The player-stats loop only touches users and playerStats. -/
theorem applyStatItem_frame (s : DB) (it : PlayerItem) :
    (applyStatItem s it).matchRow = s.matchRow ∧
    (applyStatItem s it).escrows = s.escrows := by
  unfold applyStatItem
  split
  · exact ⟨rfl, rfl⟩
  · split
    · exact ⟨rfl, rfl⟩
    · exact ⟨rfl, rfl⟩

/-- Folding the player-stats loop only touches users and playerStats. -/
theorem foldl_stats_frame (items : List PlayerItem) (s : DB) :
    (items.foldl applyStatItem s).matchRow = s.matchRow ∧
    (items.foldl applyStatItem s).escrows = s.escrows := by
  induction items generalizing s with
  | nil => exact ⟨rfl, rfl⟩
  | cons it t ih =>
    obtain ⟨h1, h2⟩ := ih (applyStatItem s it)
    obtain ⟨g1, g2⟩ := applyStatItem_frame s it
    exact ⟨by rw [List.foldl_cons, h1, g1], by rw [List.foldl_cons, h2, g2]⟩

/-- Releasing held escrows of a match is idempotent per row. -/
theorem releaseHeldFor_idem (mid : Nat) (e : EscrowTransaction) :
    releaseHeldFor mid (releaseHeldFor mid e) = releaseHeldFor mid e := by
  by_cases hc : (e.matchId == mid && e.status == EscrowStatus.HELD) = true
  · simp only [releaseHeldFor, if_pos hc]
    rw [if_neg]
    simp
  · simp only [releaseHeldFor, if_neg hc]

/-- Releasing held escrows of a match is idempotent on the whole table. -/
theorem map_releaseHeldFor_idem (mid : Nat) (l : List EscrowTransaction) :
    (l.map (releaseHeldFor mid)).map (releaseHeldFor mid) = l.map (releaseHeldFor mid) := by
  rw [List.map_map]
  apply List.map_congr_left
  intro e _
  exact releaseHeldFor_idem mid e

/-- Characterization of a successful submit_scorecard: status forced to
COMPLETED, id and captain kept, and the escrow table mapped through
releaseHeldFor (HELD escrows of this match become RELEASED, all others
are untouched). -/
theorem submit_scorecard_ok (s : DB) (actor : Nat) (w t : String)
    (ps : List PlayerItem) (hcap : s.matchRow.captain = actor) :
    ∃ s₁, submit_scorecard s actor w t ps = .ok s₁ ∧
      s₁.matchRow.status = MatchStatus.COMPLETED ∧
      s₁.matchRow.id = s.matchRow.id ∧
      s₁.matchRow.captain = s.matchRow.captain ∧
      s₁.escrows = s.escrows.map (releaseHeldFor s.matchRow.id) := by
  unfold submit_scorecard
  rw [if_neg (by simp [hcap])]
  dsimp only
  obtain ⟨hm, he⟩ := foldl_stats_frame ps
    { s with scorecard := some { winning_team_name := w, summary_text := t } }
  by_cases hst : (ps.foldl applyStatItem
      { s with scorecard := some { winning_team_name := w, summary_text := t } }).matchRow.status
      ≠ MatchStatus.COMPLETED
  · rw [if_pos hst]
    refine ⟨_, rfl, rfl, ?_, ?_, ?_⟩
    · rw [hm]
    · rw [hm]
    · rw [he, hm]
  · rw [if_neg hst]
    refine ⟨_, rfl, ?_, ?_, ?_, ?_⟩
    · simpa using hst
    · rw [hm]
    · rw [hm]
    · rw [he, hm]

/-- C8: one submit_scorecard call sets the match COMPLETED and releases
exactly the HELD escrows of the match (all other escrows unchanged); an
identical second call succeeds and leaves the match status and every
escrow exactly as after the first call. -/
theorem C8_scorecard_idempotent
    (s : DB) (actor : Nat) (w t : String) (ps : List PlayerItem) (s₁ : DB)
    (h : submit_scorecard s actor w t ps = .ok s₁) :
    s₁.matchRow.status = MatchStatus.COMPLETED ∧
    s₁.escrows = s.escrows.map (releaseHeldFor s.matchRow.id) ∧
    ∃ s₂, submit_scorecard s₁ actor w t ps = .ok s₂ ∧
      s₂.matchRow.status = s₁.matchRow.status ∧ s₂.escrows = s₁.escrows := by
  have hcap : s.matchRow.captain = actor := by
    by_contra hne
    unfold submit_scorecard at h
    rw [if_pos hne] at h
    simp at h
  obtain ⟨s₁', heq, hst, hid, hc, hesc⟩ := submit_scorecard_ok s actor w t ps hcap
  rw [heq] at h
  injection h with h
  subst h
  refine ⟨hst, hesc, ?_⟩
  obtain ⟨s₂, heq2, hst2, _, _, hesc2⟩ :=
    submit_scorecard_ok s₁' actor w t ps (by rw [hc]; exact hcap)
  refine ⟨s₂, heq2, by rw [hst2, hst], ?_⟩
  rw [hesc2, hesc, hid]
  exact map_releaseHeldFor_idem s.matchRow.id s.escrows

/-- Example state with three escrows: two HELD (one of them belonging to
another match, id 6) and one already REFUNDED. -/
def exDBesc : DB :=
  { exDB with escrows :=
      [{ matchId := 5, payer := 2, amount := 200, status := EscrowStatus.HELD },
       { matchId := 6, payer := 3, amount := 100, status := EscrowStatus.HELD },
       { matchId := 5, payer := 4, amount := 50, status := EscrowStatus.REFUNDED }] }

/-- `exDBesc` after the captain submits the scorecard: COMPLETED, the
match's HELD escrow RELEASED, the other two escrows untouched. -/
def exDBescAfter : DB :=
  { exDBesc with
      matchRow := { exMatch with status := MatchStatus.COMPLETED }
      scorecard := some { winning_team_name := "x", summary_text := "y" }
      escrows :=
        [{ matchId := 5, payer := 2, amount := 200, status := EscrowStatus.RELEASED },
         { matchId := 6, payer := 3, amount := 100, status := EscrowStatus.HELD },
         { matchId := 5, payer := 4, amount := 50, status := EscrowStatus.REFUNDED }] }

/-- C8 witness: submitting the scorecard of `exDBesc` twice. -/
theorem C8_scorecard_idempotent_witness :
    (submit_scorecard exDBesc 1 "x" "y" [] = .ok exDBescAfter) ∧
    (exDBescAfter.matchRow.status = MatchStatus.COMPLETED ∧
     exDBescAfter.escrows = exDBesc.escrows.map (releaseHeldFor exDBesc.matchRow.id) ∧
     ∃ s₂, submit_scorecard exDBescAfter 1 "x" "y" [] = .ok s₂ ∧
       s₂.matchRow.status = exDBescAfter.matchRow.status ∧
       s₂.escrows = exDBescAfter.escrows) :=
  ⟨rfl, C8_scorecard_idempotent exDBesc 1 "x" "y" [] exDBescAfter rfl⟩

/-- Admin-site example: one upcoming, uncancelled match (start 100) with
3 HELD escrows and one OPEN vacancy. -/
def exAdmDB : Adm.DB :=
  { matchRows := [{ match_id := 1, start_time := 100, is_cancelled := false
                    ground_status := GroundStatus.PENDING }]
    escrows :=
      [{ escrow_id := 1, matchId := 1, amount := 200, status := EscrowStatus.HELD },
       { escrow_id := 2, matchId := 1, amount := 200, status := EscrowStatus.HELD },
       { escrow_id := 3, matchId := 1, amount := 200, status := EscrowStatus.HELD }]
    vacancies :=
      [{ vacancy_id := 1, matchId := 1, count_needed := 2, filled_count := 0
         status := Adm.VacStatus.OPEN }] }

/-- C3: the claim states cancellation refunds every HELD escrow and
expires every non-FILLED vacancy in the same step.  cancel_matches
(admin.py lines 123-130) only sets is_cancelled: on a match with 3 HELD
escrows it leaves 0 REFUNDED (all 3 still HELD) and the vacancy still
OPEN, refuting the claim. -/
theorem C3_counterexample :
    ((Adm.cancel_matches exAdmDB [1] 0).1.matchRows.map (fun m => m.is_cancelled) = [true]) ∧
    ((Adm.cancel_matches exAdmDB [1] 0).1.escrows.filter
        (fun e => e.status == EscrowStatus.REFUNDED)).length = 0 ∧
    ((Adm.cancel_matches exAdmDB [1] 0).1.escrows.filter
        (fun e => e.status == EscrowStatus.HELD)).length = 3 ∧
    ((Adm.cancel_matches exAdmDB [1] 0).1.vacancies.map (fun v => v.status) =
      [Adm.VacStatus.OPEN]) := by decide

/-- C3 (amended): cancel_matches flips is_cancelled exactly on the
selected matches whose start_time is strictly in the future and that are
not yet cancelled; it leaves every escrow and every vacancy untouched —
no refund, no expiry happens. -/
theorem C3_cancel_only_sets_flag (db : Adm.DB) (selected : List Nat) (now : Int) :
    (Adm.cancel_matches db selected now).1.escrows = db.escrows ∧
    (Adm.cancel_matches db selected now).1.vacancies = db.vacancies ∧
    ∀ m' ∈ (Adm.cancel_matches db selected now).1.matchRows,
      m' ∈ db.matchRows ∨
      ∃ m ∈ db.matchRows, selected.contains m.match_id = true ∧ now < m.start_time ∧
        m.is_cancelled = false ∧ m' = { m with is_cancelled := true } := by
  refine ⟨rfl, rfl, ?_⟩
  intro m' hm'
  unfold Adm.cancel_matches at hm'
  dsimp only at hm'
  rcases List.mem_map.mp hm' with ⟨m, hm, rfl⟩
  by_cases hc : (selected.contains m.match_id && decide (m.start_time > now)
      && !m.is_cancelled) = true
  · right
    have hc' := hc
    rw [Bool.and_eq_true, Bool.and_eq_true] at hc'
    refine ⟨m, hm, hc'.1.1, by simpa using hc'.1.2, by simpa using hc'.2, ?_⟩
    rw [if_pos hc]
  · left
    rw [if_neg hc]
    exact hm

/-- C3 amended-theorem instance at the concrete admin state. -/
theorem C3_cancel_only_sets_flag_witness :
    (Adm.cancel_matches exAdmDB [1] 0).1.escrows = exAdmDB.escrows ∧
    (Adm.cancel_matches exAdmDB [1] 0).1.vacancies = exAdmDB.vacancies ∧
    ∀ m' ∈ (Adm.cancel_matches exAdmDB [1] 0).1.matchRows,
      m' ∈ exAdmDB.matchRows ∨
      ∃ m ∈ exAdmDB.matchRows, [1].contains m.match_id = true ∧ 0 < m.start_time ∧
        m.is_cancelled = false ∧ m' = { m with is_cancelled := true } :=
  C3_cancel_only_sets_flag exAdmDB [1] 0
